import Mathlib

/-!
Verification development for the room-booking backend's scheduling /
notification / door-access core.

Times are modelled as integer epoch seconds (the source stores
`start_time` / `end_time` as second-granularity epoch integers and
compares them against `int(datetime.now().timestamp())`).  Database
tables are modelled as Lean lists; SQLAlchemy's `.first()` on a
filtered query is `List.find?` with the query's predicate; the
APScheduler job store is an association list from job id to run date.
-/

namespace WeBack

/-- Booking status enum (`BookingStatusEnum` in `app/models/database.py`). -/
inductive BookingStatus where
  | pending
  | confirmed
  | usingRoom
  | completed
  | cancelled
deriving DecidableEq, Repr

/-- A row of the `bookings` table, restricted to the columns the
door-access validator and the power-off flow read. -/
structure Booking where
  id : Nat
  userId : Nat
  roomId : Nat
  startTime : Int
  endTime : Int
  status : BookingStatus
deriving DecidableEq, Repr

/-- Result shape of `BookingService.validate_door_access`
(`app/services/booking_service.py`): a dict with `valid`, an optional
`reason` string and, on success, the matching booking. -/
structure ValidationResult where
  valid : Bool
  reason : Option String
  booking : Option Booking
deriving DecidableEq, Repr

/-- The filter of the SQL query in `validate_door_access`
(booking_service.py lines 512-523): same user, status CONFIRMED,
`start_time <= now + 1h`, `end_time >= now`, and the joined room's id
equals the door id (the join on the booking's room reduces to
`roomId = doorId` under foreign-key integrity). -/
def doorAccessPred (userId doorId : Nat) (now : Int) (b : Booking) : Bool :=
  b.userId == userId &&
  b.status == BookingStatus.confirmed &&
  decide (b.startTime ≤ now + 3600) &&
  decide (b.endTime ≥ now) &&
  b.roomId == doorId

/-- `BookingService.validate_door_access` (booking_service.py lines
502-562), with the clock passed explicitly: run the filtered query
(`.first()`), then re-check the early window and the expiry on the row
found. -/
def validate_door_access (db : List Booking) (userId doorId : Nat) (now : Int) :
    ValidationResult :=
  match db.find? (doorAccessPred userId doorId now) with
  | none => { valid := false, reason := some "no_booking", booking := none }
  | some b =>
    if now < b.startTime - 3600 then
      { valid := false, reason := some "too_early", booking := none }
    else if now > b.endTime then
      { valid := false, reason := some "expired", booking := none }
    else
      { valid := true, reason := none, booking := some b }

/-- `validate_door_access` with its enclosing `try/except`: the body's
database access may fail (raise); the handler returns
`valid=false, reason="error"` instead of propagating.  Totality of this
Lean function is the model of "never propagates an exception". -/
def validate_door_access_total (q : Except String (List Booking))
    (userId doorId : Nat) (now : Int) : ValidationResult :=
  match q with
  | Except.error _ => { valid := false, reason := some "error", booking := none }
  | Except.ok db => validate_door_access db userId doorId now

/-- The APScheduler job store: an association list from job id to the
armed job's run date. -/
abbrev JobMap := List (String × Int)

/-- `scheduler.add_job(..., id=jobId, replace_existing=True)` (and the
explicit `get_job`/`remove_job` pair that precedes it in
`schedule_power_off`): any armed job with the same id is removed, then
the new one is armed. -/
def addJob (jobs : JobMap) (jobId : String) (runAt : Int) : JobMap :=
  jobs.filter (fun p => !(p.1 == jobId)) ++ [(jobId, runAt)]

/-- `scheduler.remove_job(jobId)`. -/
def removeJob (jobs : JobMap) (jobId : String) : JobMap :=
  jobs.filter (fun p => !(p.1 == jobId))

/-- Number of armed jobs carrying the given id. -/
def countJob (jobs : JobMap) (jobId : String) : Nat :=
  (jobs.filter (fun p => p.1 == jobId)).length

/-- `scheduler.get_job(jobId)`: the run date of the armed job with the
given id, if any. -/
def getJob (jobs : JobMap) (jobId : String) : Option Int :=
  (jobs.find? (fun p => p.1 == jobId)).map Prod.snd

/-- The idempotency key `power_off_{booking_id}_{room_id}`
(`app/services/task_scheduler.py` line 70). -/
def powerOffJobId (bookingId roomId : Nat) : String :=
  "power_off_" ++ toString bookingId ++ "_" ++ toString roomId

/-- `TaskScheduler.schedule_power_off` (task_scheduler.py lines 58-93):
remove any existing job under the idempotency key, then arm a new
date-trigger job at `powerOffTime`; returns the new store and the
job id. -/
def schedule_power_off (jobs : JobMap) (bookingId roomId : Nat)
    (powerOffTime : Int) : JobMap × String :=
  (addJob jobs (powerOffJobId bookingId roomId) powerOffTime,
   powerOffJobId bookingId roomId)

/-- `TaskScheduler.cancel_power_off` (task_scheduler.py lines 95-119):
if a job is armed under the key, remove it and answer true; otherwise
answer false and leave the store unchanged. -/
def cancel_power_off (jobs : JobMap) (bookingId roomId : Nat) : Bool × JobMap :=
  match jobs.find? (fun p => p.1 == powerOffJobId bookingId roomId) with
  | some _ => (true, removeJob jobs (powerOffJobId bookingId roomId))
  | none => (false, jobs)

/-- The power-off deadline formula of `open_door`
(`app/routers/rooms.py` line 236): booking end plus a 40 minute
buffer. -/
def door_open_power_off_time (endTime : Int) : Int := endTime + 40 * 60

/-- Subscript access on the ORM booking object
(`booking_info['end_time']`, rooms.py line 235).  `validate_door_access`
stores the SQLAlchemy ORM instance under the `booking` key
(booking_service.py line 552), and declarative models define no
`__getitem__`, so the subscript raises `TypeError` whatever the key. -/
def bookingGetItem (_b : Booking) (_key : String) : Except String Int :=
  Except.error "TypeError: Booking object is not subscriptable"

/-- `open_door`'s power-off scheduling step (rooms.py lines 231-248)
with its error path: the handler subscripts the ORM booking for
`end_time`; only if that yields a value is the 40 minute buffer added
and `schedule_power_off` called (door id passed as room id).  Line 235
sits outside the inner try of lines 239-248, so the raise propagates
to the handler's outer `except Exception` (line 319, a 500 response)
and the job store is left unchanged. -/
def open_door_schedule_power_off (jobs : JobMap) (bookingId doorId : Nat)
    (booking : Booking) : Except String (JobMap × String) :=
  match bookingGetItem booking "end_time" with
  | Except.error e => Except.error e
  | Except.ok endTime =>
    Except.ok (schedule_power_off jobs bookingId doorId
      (door_open_power_off_time endTime))

/-- A row of the `scheduled_tasks` table, restricted to the columns
`_restore_pending_tasks` reads. -/
structure ScheduledTaskRow where
  taskId : String
  taskType : String
  status : String
  scheduledTime : Int
  isDeleted : Bool
deriving DecidableEq, Repr

/-- The restore query filter (`app/services/task_scheduler_service.py`
lines 230-239): status pending or failed, scheduled_time strictly in
the future, not soft-deleted. -/
def restoreFilter (now : Int) (t : ScheduledTaskRow) : Bool :=
  (t.status == "pending" || t.status == "failed") &&
  decide (t.scheduledTime > now) && !t.isDeleted

/-- The restore loop body (task_scheduler_service.py lines 241-258):
only `booking_reminder` tasks are re-armed (with
`replace_existing=True`) and counted; every other row is skipped. -/
def restoreArm (jobs : JobMap) : List ScheduledTaskRow → JobMap × Nat
  | [] => (jobs, 0)
  | t :: ts =>
    if t.taskType == "booking_reminder" then
      let r := restoreArm (addJob jobs t.taskId t.scheduledTime) ts
      (r.1, r.2 + 1)
    else restoreArm jobs ts

/-- `TaskSchedulerService._restore_pending_tasks` (lines 228-259):
returns the task rows (untouched — the function writes nothing back to
the table), the new job store, and the restored count. -/
def restore_pending_tasks (now : Int) (db : List ScheduledTaskRow)
    (jobs : JobMap) : List ScheduledTaskRow × JobMap × Nat :=
  let r := restoreArm jobs (db.filter (restoreFilter now))
  (db, r.1, r.2)

/-- Helper predicate for reasoning about the restore loop: a row that
the loop would arm under `jobId`. -/
def reminderWithId (jobId : String) (t : ScheduledTaskRow) : Bool :=
  t.taskType == "booking_reminder" && t.taskId == jobId

/-- A row of the `power_off_tasks` table (columns the executor touches). -/
structure PowerOffTaskRow where
  bookingId : Nat
  roomId : Nat
  status : String
  executedAt : Option Int
deriving DecidableEq, Repr

/-- A row of the append-only `power_off_audit_log` table. -/
structure AuditRow where
  bookingId : Nat
  roomId : Nat
  operationType : String
  result : String
  details : String
deriving DecidableEq, Repr

/-- A row of the `rooms` table, restricted to the columns
`execute_power_off` reads. -/
structure RoomRow where
  id : Nat
  relayControllerId : String
  relayPort : Nat
deriving DecidableEq, Repr

/-- The database as the power-off path sees it.  The `bookings` table
is present but — matching the source — never read by this path. -/
structure PowerOffDb where
  rooms : List RoomRow
  tasks : List PowerOffTaskRow
  auditLog : List AuditRow
  bookings : List Booking
deriving DecidableEq, Repr

/-- Attempt loop of `PowerOffService._control_relay_with_retry`
(power_off_service.py lines 106-139), `for attempt in
range(retry_count, max_retries)`, with the transport modelled as a
function from attempt index to success and the inter-attempt sleep
dropped (it does not affect the outcome).  Returns overall success and
the number of transport calls made. -/
def controlRelayAttempts (relay : Nat → Bool) : Nat → Nat → Bool × Nat
  | _, 0 => (false, 0)
  | attempt, fuel + 1 =>
    if relay attempt then (true, 1)
    else
      let r := controlRelayAttempts relay (attempt + 1) fuel
      (r.1, r.2 + 1)

def control_relay_with_retry (relay : Nat → Bool) (retryCount maxRetries : Nat) :
    Bool × Nat :=
  controlRelayAttempts relay retryCount (maxRetries - retryCount)

/-- `PowerOffService._update_task_status`: set status/executed_at on
the task rows matching the (booking_id, room_id) pair. -/
def update_task_status (tasks : List PowerOffTaskRow) (bookingId roomId : Nat)
    (status : String) (executedAt : Option Int) : List PowerOffTaskRow :=
  tasks.map fun t =>
    if t.bookingId == bookingId && t.roomId == roomId then
      { t with status := status, executedAt := executedAt }
    else t

/-- `PowerOffService._log_power_off_operation`: append one audit row
with operation_type `automatic_power_off`. -/
def log_power_off_operation (lg : List AuditRow) (bookingId roomId : Nat)
    (result details : String) : List AuditRow :=
  lg ++ [⟨bookingId, roomId, "automatic_power_off", result, details⟩]

/-- Result of one `execute_power_off` run: the returned boolean, the
database afterwards, and how many times the relay transport was
contacted. -/
structure PowerOffExecResult where
  success : Bool
  db : PowerOffDb
  relayAttempts : Nat
deriving Repr

/-- `PowerOffService.execute_power_off` (power_off_service.py lines
17-72), `max_retries = 3`: resolve the room (room-not-found is a hard
failure with no relay contact); run the relay with retry; on success
set the task completed (executed_at = now) and log a "success" row; on
exhaustion log one "failed" row whose details quote `retry_count + 1`
attempts — the task row itself is not touched on failure. -/
def execute_power_off (db : PowerOffDb) (relay : Nat → Bool) (now : Int)
    (bookingId roomId : Nat) (retryCount : Nat) : PowerOffExecResult :=
  match db.rooms.find? (fun r => r.id == roomId) with
  | none => ⟨false, db, 0⟩
  | some _ =>
    let r := control_relay_with_retry relay retryCount 3
    if r.1 then
      let tasks1 := update_task_status db.tasks bookingId roomId "completed" (some now)
      let log1 := log_power_off_operation db.auditLog bookingId roomId "success"
        ("Automatic power-off completed (retry " ++ toString retryCount ++ ")")
      ⟨true, { db with tasks := tasks1, auditLog := log1 }, r.2⟩
    else
      let log1 := log_power_off_operation db.auditLog bookingId roomId "failed"
        ("Relay control failed after " ++ toString (retryCount + 1) ++ " attempts")
      ⟨false, { db with auditLog := log1 }, r.2⟩

/-- A row of the `booking_notifications` table (columns the retry
machinery touches). -/
structure NotificationRow where
  status : String
  retryCount : Nat
  maxRetries : Nat
  errorMessage : Option String
  isDeleted : Bool
deriving DecidableEq, Repr

/-- `NotificationService._mark_notification_failed`
(notification_service.py lines 115-126): set failed, record the error,
bump retry_count; if the bumped count is still below max_retries, set
retry instead.  (The source then returns false to its caller.) -/
def mark_notification_failed (n : NotificationRow) (err : String) :
    NotificationRow :=
  let n1 : NotificationRow :=
    { n with status := "failed", errorMessage := some err,
             retryCount := n.retryCount + 1 }
  if n1.retryCount < n1.maxRetries then { n1 with status := "retry" } else n1

/-- The row filter of `retry_failed_notifications` (lines 290-296):
status failed, retry_count below max_retries, not soft-deleted. -/
def retrySweepPred (n : NotificationRow) : Bool :=
  n.status == "failed" && decide (n.retryCount < n.maxRetries) && !n.isDeleted

/-- One row of the hourly administrative sweep: rows matching the
filter are re-flagged to retry, every other row is untouched. -/
def retrySweepOne (n : NotificationRow) : NotificationRow :=
  if retrySweepPred n then { n with status := "retry" } else n

/-- `NotificationService.retry_failed_notifications` (lines 282-307):
re-flag the matching rows and return the new table plus the count. -/
def retry_failed_notifications (ns : List NotificationRow) :
    List NotificationRow × Nat :=
  (ns.map retrySweepOne, (ns.filter retrySweepPred).length)

end WeBack

namespace WeBack

/-- C1: at `now = start - 1h - 1s` and at `now = end + 1s` a CONFIRMED
booking of the user for the room is excluded by the query's own window
filter, so the code answers `no_booking` — not `too_early` / `expired`
as the claim (and the repository's own tests) state. -/
theorem door_access_boundary_returns_no_booking :
    (validate_door_access [⟨1, 1, 1, 10000, 20000, BookingStatus.confirmed⟩] 1 1 6399).reason
      = some "no_booking" ∧
    (validate_door_access [⟨1, 1, 1, 10000, 20000, BookingStatus.confirmed⟩] 1 1 20001).reason
      = some "no_booking" ∧
    (some "no_booking" : Option String) ≠ some "too_early" ∧
    (some "no_booking" : Option String) ≠ some "expired" := by
  refine ⟨?_, ?_, by decide, by decide⟩ <;> rfl

/-- C6: for every CONFIRMED booking of the user for the door whose
window satisfies `start - 1h ≤ now ≤ end`, `validate_door_access`
answers `valid = true` together with a booking that satisfies the
query filter. -/
theorem door_access_valid_in_window (db : List Booking) (b : Booking)
    (u d : Nat) (now : Int)
    (hmem : b ∈ db)
    (hst : b.status = BookingStatus.confirmed)
    (hu : b.userId = u) (hd : b.roomId = d)
    (h1 : b.startTime - 3600 ≤ now) (h2 : now ≤ b.endTime) :
    (validate_door_access db u d now).valid = true ∧
    ∃ b', (validate_door_access db u d now).booking = some b' ∧
      doorAccessPred u d now b' = true := by
  have hpred : doorAccessPred u d now b = true := by
    simp only [doorAccessPred, Bool.and_eq_true, beq_iff_eq, decide_eq_true_eq]
    exact ⟨⟨⟨⟨hu, hst⟩, by omega⟩, by omega⟩, hd⟩
  have hsome : (db.find? (doorAccessPred u d now)).isSome := by
    rw [List.find?_isSome]
    exact ⟨b, hmem, hpred⟩
  obtain ⟨b', hfind⟩ := Option.isSome_iff_exists.mp hsome
  have hp' := List.find?_some hfind
  have hw := hp'
  simp only [doorAccessPred, Bool.and_eq_true, beq_iff_eq, decide_eq_true_eq] at hw
  obtain ⟨⟨⟨⟨_, _⟩, hw1⟩, hw2⟩, _⟩ := hw
  have hne1 : ¬ (now < b'.startTime - 3600) := by omega
  have hne2 : ¬ (now > b'.endTime) := by omega
  unfold validate_door_access
  rw [hfind]
  simp only [if_neg hne1, if_neg hne2]
  refine ⟨?_, b', ?_, hp'⟩ <;> trivial

/-- C6 witness: a concrete CONFIRMED booking, queried inside its window. -/
theorem door_access_valid_in_window_witness :
    (validate_door_access [⟨1, 2, 3, 5000, 9000, BookingStatus.confirmed⟩] 2 3 5000).valid
      = true :=
  (door_access_valid_in_window
    [⟨1, 2, 3, 5000, 9000, BookingStatus.confirmed⟩]
    ⟨1, 2, 3, 5000, 9000, BookingStatus.confirmed⟩
    2 3 5000 (by simp) rfl rfl rfl (by decide) (by decide)).1

/-- C10: the validator is total — the `except` handler turns any
internal failure into `valid = false` with the reason string `"error"`,
which is distinct from the three documented reasons; on a successful
lookup the wrapped function's answer is returned unchanged. -/
theorem door_access_total_error_reason :
    ∀ (e : String) (u d : Nat) (now : Int),
      validate_door_access_total (Except.error e) u d now
        = { valid := false, reason := some "error", booking := none } ∧
      (∀ db, validate_door_access_total (Except.ok db) u d now
        = validate_door_access db u d now) ∧
      ("error" ≠ "no_booking" ∧ "error" ≠ "too_early" ∧ "error" ≠ "expired") := by
  intro e u d now
  exact ⟨rfl, fun db => rfl, by decide, by decide, by decide⟩

theorem countJob_addJob_self (jobs : JobMap) (jobId : String) (t : Int) :
    countJob (addJob jobs jobId t) jobId = 1 := by
  induction jobs with
  | nil => simp [countJob, addJob]
  | cons p ps ih =>
    by_cases h : p.1 = jobId
    · simp [countJob, addJob, List.filter_cons, h]
    · simp [countJob, addJob, List.filter_cons, h]

theorem countJob_addJob_ne (jobs : JobMap) (i j : String) (t : Int) (h : i ≠ j) :
    countJob (addJob jobs i t) j = countJob jobs j := by
  have hji : j ≠ i := Ne.symm h
  induction jobs with
  | nil => simp [countJob, addJob, h]
  | cons p ps ih =>
    by_cases hp : p.1 = i
    · have hpj : p.1 ≠ j := by rw [hp]; exact h
      simpa [countJob, addJob, List.filter_cons, hp, hpj, h, hji] using ih
    · by_cases hj : p.1 = j
      · simpa [countJob, addJob, List.filter_cons, hp, hj, h, hji] using ih
      · simpa [countJob, addJob, List.filter_cons, hp, hj, h, hji] using ih

theorem getJob_addJob_self (jobs : JobMap) (jobId : String) (t : Int) :
    getJob (addJob jobs jobId t) jobId = some t := by
  induction jobs with
  | nil => simp [getJob, addJob]
  | cons p ps ih =>
    by_cases h : p.1 = jobId
    · simp [getJob, addJob, List.filter_cons, h]
    · simp [getJob, addJob, List.filter_cons, List.find?_cons, h]

theorem restoreArm_countJob (L : List ScheduledTaskRow) (jobs : JobMap)
    (jobId : String) :
    countJob (restoreArm jobs L).1 jobId =
      if L.any (reminderWithId jobId) then 1 else countJob jobs jobId := by
  induction L generalizing jobs with
  | nil => simp [restoreArm]
  | cons t ts ih =>
    by_cases hty : t.taskType = "booking_reminder"
    · by_cases hid : t.taskId = jobId
      · subst hid
        simp only [restoreArm, hty, beq_self_eq_true, if_true, List.any_cons,
          reminderWithId, Bool.or_eq_true, Bool.and_eq_true, beq_iff_eq]
        rw [ih]
        by_cases hts : ts.any (reminderWithId t.taskId) = true
        · simp [hts, reminderWithId, hty]
        · simp [hts, reminderWithId, hty, countJob_addJob_self]
      · simp only [restoreArm, hty, beq_self_eq_true, if_true, List.any_cons]
        rw [ih, countJob_addJob_ne _ _ _ _ hid]
        have hfalse : reminderWithId jobId t = false := by
          simp [reminderWithId, hid]
        simp [hfalse]
    · have hskip : (t.taskType == "booking_reminder") = false := by
        simp [hty]
      have : reminderWithId jobId t = false := by
        simp [reminderWithId, hty]
      simp only [restoreArm, hskip, if_false, List.any_cons, this, Bool.false_or]
      exact ih jobs

/-- C5: scheduling the same power-off idempotency key twice leaves
exactly one armed job under the key, and it fires at the second call's
run time (cancel-then-replace, not duplication). -/
theorem schedule_power_off_same_key_twice (jobs : JobMap)
    (bookingId roomId : Nat) (t1 t2 : Int) :
    countJob (schedule_power_off
        (schedule_power_off jobs bookingId roomId t1).1 bookingId roomId t2).1
      (powerOffJobId bookingId roomId) = 1 ∧
    getJob (schedule_power_off
        (schedule_power_off jobs bookingId roomId t1).1 bookingId roomId t2).1
      (powerOffJobId bookingId roomId) = some t2 :=
  ⟨countJob_addJob_self _ _ _, getJob_addJob_self _ _ _⟩

/-- C8: the door-open handler never reaches `schedule_power_off` — the
subscript on the ORM booking raises for every booking, here the one
ending 1762365600 (2025-11-05T18:00:00Z), so the step errors out with
the store untouched and no job is armed at 18:40:00; yet the deadline
formula on the very next source line (and the repository's own
`test_power_off_time_calculation`) gives the claimed end + 40 min,
concretely 1762368000 (2025-11-05T18:40:00Z). -/
theorem open_door_power_off_unreachable :
    open_door_schedule_power_off [] 5 7
        ⟨5, 1, 7, 1762351200, 1762365600, BookingStatus.confirmed⟩
      = Except.error "TypeError: Booking object is not subscriptable" ∧
    door_open_power_off_time 1762365600 = 1762368000 :=
  ⟨rfl, rfl⟩

/-- C9: cancelling a power-off for a pair that was never scheduled (or
whose job has already fired and left the store) answers false and
changes nothing. -/
theorem cancel_power_off_unscheduled_noop (jobs : JobMap)
    (bookingId roomId : Nat)
    (h : ∀ p ∈ jobs, p.1 ≠ powerOffJobId bookingId roomId) :
    cancel_power_off jobs bookingId roomId = (false, jobs) := by
  have hnone : jobs.find? (fun p => p.1 == powerOffJobId bookingId roomId) = none := by
    rw [List.find?_eq_none]
    intro p hp
    simpa using h p hp
  simp [cancel_power_off, hnone]

/-- C9 witness: empty job store, concrete ids. -/
theorem cancel_power_off_unscheduled_noop_witness :
    cancel_power_off [] 1 2 = (false, []) :=
  cancel_power_off_unscheduled_noop [] 1 2 (by simp)

/-- C3 counterexample: a persisted pending `booking_reminder` task
whose scheduled time (50) already passed (now = 100) is silently
dropped by the restore pass — no job is armed, nothing is fired,
nothing is flagged, the row is untouched, restored count is 0. -/
theorem restore_drops_overdue_task :
    restore_pending_tasks 100
        [⟨"booking_reminder_7_x", "booking_reminder", "pending", 50, false⟩] []
      = ([⟨"booking_reminder_7_x", "booking_reminder", "pending", 50, false⟩], [], 0) := by
  rfl

/-- C3 (amended): a persisted non-deleted `booking_reminder` task with
status pending or failed and a future scheduled time is re-armed
exactly once; a task whose scheduled time has already passed is
silently dropped: it is neither re-armed nor flagged, and the task
rows are returned unchanged. -/
theorem restore_pending_tasks_amended (now : Int) (db : List ScheduledTaskRow)
    (jobs : JobMap) :
    (∀ t ∈ db, restoreFilter now t = true → t.taskType = "booking_reminder" →
        countJob (restore_pending_tasks now db jobs).2.1 t.taskId = 1) ∧
    (∀ t ∈ db, t.scheduledTime ≤ now →
        (∀ t' ∈ db, t'.taskId = t.taskId → t'.scheduledTime ≤ now) →
        countJob (restore_pending_tasks now db jobs).2.1 t.taskId
          = countJob jobs t.taskId) ∧
    (restore_pending_tasks now db jobs).1 = db := by
  refine ⟨?_, ?_, rfl⟩
  · intro t hmem hfil hty
    have hany : (db.filter (restoreFilter now)).any (reminderWithId t.taskId) = true := by
      rw [List.any_eq_true]
      refine ⟨t, List.mem_filter.mpr ⟨hmem, hfil⟩, ?_⟩
      simp [reminderWithId, hty]
    simp only [restore_pending_tasks, restoreArm_countJob, hany, if_true]
  · intro t hmem hpast hall
    have hany : (db.filter (restoreFilter now)).any (reminderWithId t.taskId) = false := by
      rw [Bool.eq_false_iff]
      intro hcontra
      rw [List.any_eq_true] at hcontra
      obtain ⟨t', ht'mem, ht'rem⟩ := hcontra
      obtain ⟨ht'db, ht'fil⟩ := List.mem_filter.mp ht'mem
      have hid : t'.taskId = t.taskId := by
        simp only [reminderWithId, Bool.and_eq_true, beq_iff_eq] at ht'rem
        exact ht'rem.2
      have hfut : t'.scheduledTime > now := by
        simp only [restoreFilter, Bool.and_eq_true, decide_eq_true_eq] at ht'fil
        exact ht'fil.1.2
      have := hall t' ht'db hid
      omega
    simp only [restore_pending_tasks, restoreArm_countJob, hany]
    simp

/-- C3 (amended) witness: a future pending reminder task, restored into
an empty store, ends up armed exactly once. -/
theorem restore_pending_tasks_amended_witness :
    countJob (restore_pending_tasks 0
        [⟨"booking_reminder_7_x", "booking_reminder", "pending", 50, false⟩] []).2.1
      "booking_reminder_7_x" = 1 :=
  (restore_pending_tasks_amended 0
      [⟨"booking_reminder_7_x", "booking_reminder", "pending", 50, false⟩] []).1
    ⟨"booking_reminder_7_x", "booking_reminder", "pending", 50, false⟩
    (by simp) (by decide) rfl

theorem controlRelayAttempts_all_fail (relay : Nat → Bool)
    (h : ∀ n, relay n = false) (attempt fuel : Nat) :
    controlRelayAttempts relay attempt fuel = (false, fuel) := by
  induction fuel generalizing attempt with
  | zero => rfl
  | succ f ih => simp [controlRelayAttempts, h, ih]

theorem controlRelayAttempts_pos (relay : Nat → Bool) (attempt fuel : Nat) :
    1 ≤ (controlRelayAttempts relay attempt (fuel + 1)).2 := by
  cases h : relay attempt <;> simp [controlRelayAttempts, h]

/-- C2 counterexample: with a transport that fails every attempt, the
executor makes 3 relay attempts but appends exactly ONE audit row with
result "failed" (not `max_retries` = 3 rows), and the task row's
status stays "scheduled" — it is never set to "failed". -/
theorem execute_power_off_exhaustion_counterexample :
    (execute_power_off ⟨[⟨7, "c", 1⟩], [⟨5, 7, "scheduled", none⟩], [], []⟩
        (fun _ => false) 1000 5 7 0).relayAttempts = 3 ∧
    ((execute_power_off ⟨[⟨7, "c", 1⟩], [⟨5, 7, "scheduled", none⟩], [], []⟩
        (fun _ => false) 1000 5 7 0).db.auditLog.filter
        (fun a => a.result == "failed")).length = 1 ∧
    (1 : Nat) ≠ 3 ∧
    (execute_power_off ⟨[⟨7, "c", 1⟩], [⟨5, 7, "scheduled", none⟩], [], []⟩
        (fun _ => false) 1000 5 7 0).db.tasks
      = [⟨5, 7, "scheduled", none⟩] ∧
    ("scheduled" : String) ≠ "failed" := by
  refine ⟨?_, ?_, by decide, ?_, by decide⟩ <;> rfl

/-- C2 (amended): on persistent transport failure with retry_count = 0
the executor contacts the relay exactly `max_retries` (= 3) times,
returns false, appends exactly one audit-log row with result "failed"
(whose details text quotes `retry_count + 1` = 1 attempts), and leaves
the task rows — in particular their status — unchanged. -/
theorem execute_power_off_exhaustion (db : PowerOffDb) (relay : Nat → Bool)
    (now : Int) (bookingId roomId : Nat)
    (hfail : ∀ n, relay n = false)
    (hroom : (db.rooms.find? (fun r => r.id == roomId)).isSome) :
    (execute_power_off db relay now bookingId roomId 0).success = false ∧
    (execute_power_off db relay now bookingId roomId 0).relayAttempts = 3 ∧
    (execute_power_off db relay now bookingId roomId 0).db.tasks = db.tasks ∧
    (execute_power_off db relay now bookingId roomId 0).db.auditLog
      = db.auditLog ++ [⟨bookingId, roomId, "automatic_power_off", "failed",
          "Relay control failed after 1 attempts"⟩] := by
  obtain ⟨room, hfind⟩ := Option.isSome_iff_exists.mp hroom
  have hrelay : control_relay_with_retry relay 0 3 = (false, 3) :=
    controlRelayAttempts_all_fail relay hfail 0 3
  unfold execute_power_off
  rw [hfind]
  simp [hrelay, log_power_off_operation]
  decide

/-- C2 (amended) witness: concrete store, always-failing transport. -/
theorem execute_power_off_exhaustion_witness :
    (execute_power_off ⟨[⟨7, "c", 1⟩], [⟨5, 7, "scheduled", none⟩], [], []⟩
        (fun _ => false) 1000 5 7 0).relayAttempts = 3 :=
  (execute_power_off_exhaustion
      ⟨[⟨7, "c", 1⟩], [⟨5, 7, "scheduled", none⟩], [], []⟩
      (fun _ => false) 1000 5 7 (fun _ => rfl) (by decide)).2.1

/-- C4 counterexample: a power-off task fired for booking 5 in room 7
while that booking's status is cancelled still contacts the relay (one
transport call here) and, on transport success, completes with an
audit result of "success" — not a skipped result with no relay
contact. -/
theorem execute_power_off_cancelled_counterexample :
    (execute_power_off ⟨[⟨7, "c", 1⟩], [⟨5, 7, "scheduled", none⟩], [],
        [⟨5, 1, 7, 0, 100, BookingStatus.cancelled⟩]⟩
        (fun _ => true) 1000 5 7 0).relayAttempts = 1 ∧
    (1 : Nat) ≠ 0 ∧
    (execute_power_off ⟨[⟨7, "c", 1⟩], [⟨5, 7, "scheduled", none⟩], [],
        [⟨5, 1, 7, 0, 100, BookingStatus.cancelled⟩]⟩
        (fun _ => true) 1000 5 7 0).db.auditLog
      = [⟨5, 7, "automatic_power_off", "success",
          "Automatic power-off completed (retry 0)"⟩] ∧
    ("success" : String) ≠ "skipped" := by
  refine ⟨?_, by decide, ?_, by decide⟩ <;> rfl

/-- C4 (amended): the power-off executor never consults the booking's
status — its outcome is invariant under arbitrary changes to the
bookings table — and whenever the room exists it contacts the relay at
least once, cancelled booking or not; the skip-on-cancelled rule
exists only in the booking-reminder path. -/
theorem execute_power_off_ignores_booking_status (db : PowerOffDb)
    (bs : List Booking) (relay : Nat → Bool) (now : Int)
    (bookingId roomId : Nat)
    (hroom : (db.rooms.find? (fun r => r.id == roomId)).isSome) :
    (execute_power_off { db with bookings := bs } relay now bookingId roomId 0).success
      = (execute_power_off db relay now bookingId roomId 0).success ∧
    (execute_power_off { db with bookings := bs } relay now bookingId roomId 0).relayAttempts
      = (execute_power_off db relay now bookingId roomId 0).relayAttempts ∧
    1 ≤ (execute_power_off db relay now bookingId roomId 0).relayAttempts := by
  obtain ⟨room, hfind⟩ := Option.isSome_iff_exists.mp hroom
  have hrooms : ({ db with bookings := bs } : PowerOffDb).rooms = db.rooms := rfl
  have hpos : 1 ≤ (control_relay_with_retry relay 0 3).2 :=
    controlRelayAttempts_pos relay 0 2
  unfold execute_power_off
  rw [hrooms, hfind]
  cases hcr : (control_relay_with_retry relay 0 3).1 <;>
    simp [hcr] <;> exact hpos

/-- C4 (amended) witness: concrete store with a cancelled booking. -/
theorem execute_power_off_ignores_booking_status_witness :
    1 ≤ (execute_power_off ⟨[⟨7, "c", 1⟩], [⟨5, 7, "scheduled", none⟩], [], []⟩
        (fun _ => true) 1000 5 7 0).relayAttempts :=
  (execute_power_off_ignores_booking_status
      ⟨[⟨7, "c", 1⟩], [⟨5, 7, "scheduled", none⟩], [], []⟩
      [⟨5, 1, 7, 0, 100, BookingStatus.cancelled⟩]
      (fun _ => true) 1000 5 7 (by decide)).2.2

/-- C7: (i) after a failed delivery is recorded, `retry_count` never
exceeds `max_retries` while the row's status is retry; (ii) a fresh
notification with max_retries = 3 failing three consecutive deliveries
passes through retry twice and ends failed with retry_count = 3;
(iii) the administrative sweep re-flags to retry exactly the failed
rows with retry_count < max_retries, leaving every other row
untouched. -/
theorem notification_retry_invariant :
    (∀ (n : NotificationRow) (e : String),
       (mark_notification_failed n e).status = "retry" →
       (mark_notification_failed n e).retryCount
         ≤ (mark_notification_failed n e).maxRetries) ∧
    (mark_notification_failed (mark_notification_failed (mark_notification_failed
        ⟨"pending", 0, 3, none, false⟩ "send failed") "send failed") "send failed"
      = ⟨"failed", 3, 3, some "send failed", false⟩ ∧
     (mark_notification_failed ⟨"pending", 0, 3, none, false⟩ "send failed").status
       = "retry" ∧
     (mark_notification_failed (mark_notification_failed
        ⟨"pending", 0, 3, none, false⟩ "send failed") "send failed").status
       = "retry") ∧
    (∀ ns : List NotificationRow,
       (retry_failed_notifications ns).1 = ns.map retrySweepOne) ∧
    (∀ n : NotificationRow, retrySweepOne n = n ∨
      (n.status = "failed" ∧ n.retryCount < n.maxRetries ∧ n.isDeleted = false ∧
       retrySweepOne n = { n with status := "retry" })) := by
  refine ⟨?_, ⟨by decide, by decide, by decide⟩, fun ns => rfl, ?_⟩
  · intro n e hret
    unfold mark_notification_failed at hret ⊢
    by_cases h : n.retryCount + 1 < n.maxRetries
    · simp only [h, if_true]
      omega
    · simp only [h, if_false] at hret
      simp at hret
  · intro n
    unfold retrySweepOne
    by_cases h : retrySweepPred n = true
    · right
      have hparts := h
      simp only [retrySweepPred, Bool.and_eq_true, beq_iff_eq,
        decide_eq_true_eq, Bool.not_eq_true'] at hparts
      exact ⟨hparts.1.1, hparts.1.2, hparts.2, by simp [h]⟩
    · left
      simp [h]

/-- C7 witness: one recorded failure on a fresh notification leaves it
in retry with retry_count within max_retries. -/
theorem notification_retry_invariant_witness :
    (mark_notification_failed ⟨"pending", 0, 3, none, false⟩ "x").retryCount
      ≤ (mark_notification_failed ⟨"pending", 0, 3, none, false⟩ "x").maxRetries :=
  notification_retry_invariant.1 ⟨"pending", 0, 3, none, false⟩ "x" (by decide)

end WeBack
